import Mathlib

/-!
Shallow embedding of the Window Merge Pidgin plugin (src/merge.c).

The plugin merges the Pidgin Buddy List window with a conversation window.
We model the widget state the code manipulates: the GtkPaned layout, the
preference store, the per-window saved-state slots, the bidirectional
association tags, the conversation-window menu items, the focus signal
connection, and the GtkIMHtml key-binding skip set.

Machine integers (gint) are modelled as Int: the quantities involved are
widget pixel sizes, far from 32-bit overflow.
-/

namespace WindowMerge

/-- Orientation of a GtkPaned: gtk_vpaned_new vs gtk_hpaned_new. -/
inductive Orientation where
  | vertical
  | horizontal
deriving DecidableEq, Repr

/-- Which notebook occupies a pane of the paned layout. -/
inductive PaneChild where
  | convNotebook
  | blistNotebook
deriving DecidableEq, Repr

/-- State of the GtkPaned holding the two notebooks: orientation, the pack
order of its two children, the slider position and the max-position
property, and which of the two plugin callbacks are currently connected
to its notify signals. -/
structure Paned where
  orientation : Orientation
  child1 : PaneChild
  child2 : PaneChild
  position : Int
  maxPosition : Int
  maxPosConnected : Bool
  posConnected : Bool
deriving DecidableEq, Repr

/-- The purple preference store as used by the plugin: PREF_WIDTH and
PREF_HEIGHT are integers, PREF_SIDE is a string.  A C string is modelled
as Option (List Char): none is NULL, the list is the characters before
the terminating NUL. -/
structure Prefs where
  width : Int
  height : Int
  side : Option (List Char)
deriving DecidableEq, Repr

/-- Guard `side != NULL && (*side == a || *side == b)` from merge.c: only
the first character of the preference string is examined; a NULL string or
an empty string (whose first character is the NUL terminator) fails. -/
def firstCharIs (side : Option (List Char)) (a b : Char) : Bool :=
  match side with
  | none => false
  | some [] => false
  | some (c :: _) => c = a || c = b

/-- notify_position_cb (merge.c lines 47-68): when the slider moves, read
the position, invert it against max-position when the Buddy List notebook
is not child1, and store it under PREF_HEIGHT for a vertical paned and
PREF_WIDTH otherwise. -/
def notify_position_cb (gobject : Paned) (prefs : Prefs) : Prefs :=
  let size := gobject.position
  let size := if gobject.child1 ≠ PaneChild.blistNotebook then
      gobject.maxPosition - size
    else size
  if gobject.orientation = Orientation.vertical then
    { prefs with height := size }
  else
    { prefs with width := size }

/-- notify_max_position_cb (merge.c lines 83-114): fetch the preferred
Buddy List size (PREF_HEIGHT for a vertical paned, PREF_WIDTH otherwise),
invert it when the Buddy List notebook is not child1, set the slider to
it, disconnect this callback, and only then connect notify_position_cb.
The preference store is not written. -/
def notify_max_position_cb (gobject : Paned) (prefs : Prefs) : Paned :=
  let size := if gobject.orientation = Orientation.vertical then
      prefs.height
    else prefs.width
  let size := if gobject.child1 ≠ PaneChild.blistNotebook then
      gobject.maxPosition - size
    else size
  { gobject with
      position := size
      maxPosConnected := false
      posConnected := true }

/-- Events delivered to the paned by GTK: a notify::max-position emission,
or the user dragging the slider to a new position (which emits
notify::position). -/
inductive PEvent where
  | maxPosNotify
  | userMove (p : Int)
deriving DecidableEq, Repr

/-- Signal dispatch on the paned: each event runs the corresponding
callback exactly when that callback is connected. -/
def pwm_step (s : Paned × Prefs) (e : PEvent) : Paned × Prefs :=
  match e with
  | PEvent.maxPosNotify =>
      if s.1.maxPosConnected then (notify_max_position_cb s.1 s.2, s.2) else s
  | PEvent.userMove p =>
      let paned := { s.1 with position := p }
      if paned.posConnected then (paned, notify_position_cb paned s.2)
      else (paned, s.2)

/-- A menu item of the conversation window's menu bar: its widget identity,
its visibility, and whether it currently sits on the Buddy List's menu bar
(migrated) or on the conversation window's own menu bar. -/
structure MenuItem where
  id : Nat
  visible : Bool
  onBlistBar : Bool
deriving DecidableEq, Repr

/-- A Pidgin conversation window (PidginWindow): its `window` field (which
pwm_merge_conversation redirects to the Buddy List's window), the window
widget it was created with, its menu-bar items, the pwm_blist back-pointer
tag on its notebook, and whether its notebook has been moved into the
Buddy List's paned (a placeholder standing in its original spot). -/
structure ConvWin where
  windowPtr : Nat
  realWindow : Nat
  menuItems : List MenuItem
  blistTag : Option Nat
  notebookMerged : Bool
deriving DecidableEq, Repr

/-- Observable state of a Buddy List window and the global state the plugin
touches.  The five pwm_store/pwm_fetch/pwm_clear slots ("title",
"conv_menus", "paned", "placeholder", "conv_window") are modelled from the
spec: their implementation lives in the repository outside src/, and the
spec describes them as key-value data attached to the Buddy List window
for the duration of the merge.  `layoutPaned` doubles as the "paned" slot
and the layout itself: none means the Buddy List notebook sits directly in
its window.  `convs` is the "pwm_convs" tag on the Buddy List notebook.
`focusConnTo` records the focus-in-event connection from the Buddy List
window to the given conversation window.  `skipped` is the set of
GtkIMHtml binding entries marked to be skipped (a class-wide, global
effect).  `detached` holds conversation windows living on their own after
a split.  `fresh` is a counter producing identities for newly created
widgets. -/
structure GState where
  blistId : Nat
  blistWindow : Nat
  title : String
  prefs : Prefs
  layoutPaned : Option Paned
  slotTitle : Option String
  slotMenus : Option (List Nat)
  slotPlaceholder : Option Nat
  slotConvWindow : Option Nat
  convs : Option ConvWin
  focusConnTo : Option Nat
  dummy : Bool
  skipped : List (Nat × Nat)
  detached : List ConvWin
  fresh : Nat
deriving DecidableEq, Repr

/-- Modelled from the spec: pwm_blist_get_convs (defined in the repository
outside src/) reads the "pwm_convs" association tag that merge.c line 179
sets on the Buddy List notebook. -/
def pwm_blist_get_convs (s : GState) : Option ConvWin := s.convs

/-- The six move-cursor binding entries skipped by pwm_merge_conversation
(merge.c lines 224-229): (keyval, GDK_CONTROL_MASK) pairs for Up, Down,
Page_Up, Page_Down, KP_Page_Up, KP_Page_Down. -/
def pwmSkippedBindings : List (Nat × Nat) :=
  [(0xFF52, 4), (0xFF54, 4), (0xFF55, 4), (0xFF56, 4), (0xFF9A, 4), (0xFF9B, 4)]

/-- gtk_binding_entry_skip: mark a binding entry as skipped; marking an
already-skipped entry changes nothing. -/
def gtk_binding_entry_skip (set : List (Nat × Nat)) (e : Nat × Nat) :
    List (Nat × Nat) :=
  if e ∈ set then set else e :: set

/-- pidgin_conv_window_new: the host creates a fresh conversation window
whose `window` field is its own new window, carrying `nItems` menu items
on its menu bar, all visible, none migrated, no pwm_blist tag. -/
def pidgin_conv_window_new (base : Nat) (nItems : Nat) : ConvWin :=
  { windowPtr := base
    realWindow := base
    menuItems := (List.range nItems).map (fun i => ⟨base + 1 + i, true, false⟩)
    blistTag := none
    notebookMerged := false }

/-- Set the visibility of every stored conversation menu item found in a
conversation window (gtk_widget_show / gtk_widget_hide over the saved
GList). -/
def setItemsVisible (ids : List Nat) (visible : Bool) (cw : ConvWin) : ConvWin :=
  { cw with
      menuItems := cw.menuItems.map
        (fun it => if it.id ∈ ids then { it with visible := visible } else it) }

/-- pwm_set_conv_menus_visible (merge.c lines 385-400): fetch the
"conv_menus" slot (NULL when absent, modelled as the empty list) and show
or hide every widget in it.  The widgets live on whichever conversation
window currently owns them. -/
def pwm_set_conv_menus_visible (s : GState) (visible : Bool) : GState :=
  let ids := s.slotMenus.getD []
  { s with
      convs := s.convs.map (setItemsVisible ids visible)
      detached := s.detached.map (setItemsVisible ids visible) }

/-- pwm_create_paned_layout (merge.c lines 319-376): choose the paned
orientation from the first character of the side preference (vertical for
t/b, horizontal otherwise, NULL included), connect notify_max_position_cb
to the new paned, and pack the two notebooks.  With no existing paned
(pristine Buddy List) the conversation notebook is swapped for a fresh
placeholder and both notebooks are packed via pwm_widget_replace; with an
existing paned both notebooks are reparented into the new one.  In both
branches the conversation notebook is packed first exactly when the first
character of side is t/l, otherwise the Buddy List notebook comes first.
The pwm_widget_replace helper is modelled from the spec (it lives in the
repository outside src/): replacing a widget and handing the old one to
the paned packs it as the paned's next child, so the two calls' order is
the pack order. -/
def pwm_create_paned_layout (s : GState) (side : Option (List Char)) : GState :=
  let orient := if firstCharIs side 't' 'b' then Orientation.vertical
    else Orientation.horizontal
  let children : PaneChild × PaneChild :=
    if firstCharIs side 't' 'l' then
      (PaneChild.convNotebook, PaneChild.blistNotebook)
    else (PaneChild.blistNotebook, PaneChild.convNotebook)
  let paned : Paned :=
    { orientation := orient
      child1 := children.1
      child2 := children.2
      position := 0
      maxPosition := 0
      maxPosConnected := true
      posConnected := false }
  match s.layoutPaned with
  | none =>
      { s with
          layoutPaned := some paned
          slotPlaceholder := some s.fresh
          fresh := s.fresh + 1
          convs := s.convs.map (fun c => { c with notebookMerged := true }) }
  | some _ =>
      { s with
          layoutPaned := some paned
          convs := s.convs.map (fun c => { c with notebookMerged := true }) }

/-- pwm_merge_conversation (merge.c lines 160-230): guard against an
already-merged Buddy List, create a conversation window, tie the two
windows together with the pwm_convs / pwm_blist tags, back up the window
title, build the paned layout from the side preference, migrate the menu
items to the Buddy List bar and save the list, hide them, connect the
focus-in-event forwarder, save the conversation window pointer and point
it at the Buddy List's window, and skip the six move-cursor bindings. -/
def pwm_merge_conversation (s : GState) (nItems : Nat) : GState :=
  if (pwm_blist_get_convs s).isSome then s
  else
    let cw := pidgin_conv_window_new s.fresh nItems
    let s1 : GState :=
      { s with
          fresh := s.fresh + 1 + nItems
          convs := some { cw with blistTag := some s.blistId }
          slotTitle := some s.title }
    let s2 := pwm_create_paned_layout s1 s1.prefs.side
    let ids := cw.menuItems.map (fun it => it.id)
    let s3 : GState :=
      { s2 with
          convs := s2.convs.map
            (fun c =>
              { c with
                  menuItems := c.menuItems.map
                    (fun it => { it with onBlistBar := true }) })
          slotMenus := some ids }
    let s4 := pwm_set_conv_menus_visible { s3 with dummy := true } false
    { s4 with
        focusConnTo := some cw.realWindow
        slotConvWindow := some cw.windowPtr
        convs := s4.convs.map (fun c => { c with windowPtr := s.blistWindow })
        skipped := pwmSkippedBindings.foldl gtk_binding_entry_skip s.skipped }

/-- pwm_split_conversation (merge.c lines 242-304): undo a merge.  The
source dereferences the pwm_convs tag unconditionally, so on an unmerged
Buddy List the model reports failure (none).  Otherwise it steals both
association tags, restores the conversation window pointer from the
"conv_window" slot, disconnects the focus forwarder, reparents the saved
menu items back to the conversation window's menu bar, swaps the
placeholder back for the conversation notebook, shows the conversation
window (now detached), frees the dummy conversation, replaces the paned
with the bare Buddy List notebook, restores the saved title, and clears
every slot. -/
def pwm_split_conversation (s : GState) : Option GState :=
  match pwm_blist_get_convs s with
  | none => none
  | some cw =>
      let ids := s.slotMenus.getD []
      let cw1 : ConvWin :=
        { cw with
            blistTag := none
            windowPtr := (s.slotConvWindow).getD 0
            menuItems := cw.menuItems.map
              (fun it => if it.id ∈ ids then { it with onBlistBar := false } else it)
            notebookMerged := false }
      some
        { s with
            convs := none
            slotConvWindow := none
            focusConnTo := none
            slotMenus := none
            slotPlaceholder := none
            layoutPaned := none
            dummy := false
            title := (s.slotTitle).getD ""
            slotTitle := none
            detached := cw1 :: s.detached }

/-- Operations the plugin can run on a merged Buddy List between a merge
and a split: rebuilding the paned layout when the side preference changes,
and toggling the conversation menu items' visibility. -/
inductive POp where
  | relayout (side : Option (List Char))
  | menusVisible (b : Bool)
deriving DecidableEq, Repr

/-- Interpretation of the between-merge-and-split operations. -/
def applyOp (s : GState) : POp → GState
  | POp.relayout side => pwm_create_paned_layout s side
  | POp.menusVisible b => pwm_set_conv_menus_visible s b

/-- What a split after a merge gives back: every Buddy-List-observable
component is as it was before the merge, the conversation window is
detached with its pointer, notebook and menu items back home and the
back-pointer tag gone — except the binding skip set, which now contains
the six skipped move-cursor entries. -/
def pwm_split_restores (s : GState) (nItems : Nat) : Prop :=
  ∃ s2, pwm_split_conversation (pwm_merge_conversation s nItems) = some s2 ∧
    s2.title = s.title ∧ s2.blistId = s.blistId ∧
    s2.blistWindow = s.blistWindow ∧ s2.prefs = s.prefs ∧
    s2.layoutPaned = none ∧ s2.slotTitle = none ∧ s2.slotMenus = none ∧
    s2.slotPlaceholder = none ∧ s2.slotConvWindow = none ∧
    s2.convs = none ∧ s2.focusConnTo = none ∧ s2.dummy = false ∧
    (∃ cw, s2.detached = cw :: s.detached ∧ cw.blistTag = none ∧
      cw.windowPtr = cw.realWindow ∧ cw.notebookMerged = false ∧
      ∀ it ∈ cw.menuItems, it.onBlistBar = false) ∧
    s2.skipped = pwmSkippedBindings.foldl gtk_binding_entry_skip s.skipped

/-- One-shot behaviour of the initial-size callback, starting from a paned
whose only connection is notify_max_position_cb: the first
notify::max-position dispatch applies the stored preference without
writing any preference back, swaps the connections, and from then on
notify::max-position dispatches change nothing while every user slider
move runs notify_position_cb on the current preference store. -/
def pwm_one_shot_from (p0 : Paned) (prefs : Prefs) : Prop :=
  (pwm_step (p0, prefs) PEvent.maxPosNotify =
      (notify_max_position_cb p0 prefs, prefs)) ∧
  (pwm_step (p0, prefs) PEvent.maxPosNotify).1.maxPosConnected = false ∧
  (pwm_step (p0, prefs) PEvent.maxPosNotify).1.posConnected = true ∧
  ∀ es : List PEvent,
    (es.foldl pwm_step (pwm_step (p0, prefs) PEvent.maxPosNotify)).1.maxPosConnected
        = false ∧
    (es.foldl pwm_step (pwm_step (p0, prefs) PEvent.maxPosNotify)).1.posConnected
        = true ∧
    pwm_step (es.foldl pwm_step (pwm_step (p0, prefs) PEvent.maxPosNotify))
        PEvent.maxPosNotify
      = es.foldl pwm_step (pwm_step (p0, prefs) PEvent.maxPosNotify) ∧
    ∀ q : Int,
      (pwm_step (es.foldl pwm_step (pwm_step (p0, prefs) PEvent.maxPosNotify))
          (PEvent.userMove q)).2
        = notify_position_cb
            { (es.foldl pwm_step (pwm_step (p0, prefs) PEvent.maxPosNotify)).1 with
                position := q }
            (es.foldl pwm_step (pwm_step (p0, prefs) PEvent.maxPosNotify)).2

/-- A pristine unmerged Buddy List used as a concrete test state. -/
def exBlist : GState :=
  { blistId := 1
    blistWindow := 2
    title := ""
    prefs := { width := 10, height := 20, side := some ['l'] }
    layoutPaned := none
    slotTitle := none
    slotMenus := none
    slotPlaceholder := none
    slotConvWindow := none
    convs := none
    focusConnTo := none
    dummy := false
    skipped := []
    detached := []
    fresh := 100 }

/-- A concrete conversation window in merged shape. -/
def exConv : ConvWin :=
  { windowPtr := 2
    realWindow := 100
    menuItems := [⟨101, false, true⟩, ⟨102, false, true⟩]
    blistTag := some 1
    notebookMerged := true }

/-- A concrete merged Buddy List state. -/
def exMerged : GState :=
  { exBlist with
      layoutPaned := some
        { orientation := Orientation.horizontal
          child1 := PaneChild.convNotebook
          child2 := PaneChild.blistNotebook
          position := 0
          maxPosition := 0
          maxPosConnected := true
          posConnected := false }
      slotTitle := some ""
      slotMenus := some [101, 102]
      slotPlaceholder := some 103
      slotConvWindow := some 100
      convs := some exConv
      focusConnTo := some 100
      dummy := true
      skipped := pwmSkippedBindings.reverse
      fresh := 104 }

/-- A concrete paned used to instantiate the callback claims. -/
def exPaned : Paned :=
  { orientation := Orientation.vertical
    child1 := PaneChild.convNotebook
    child2 := PaneChild.blistNotebook
    position := 30
    maxPosition := 100
    maxPosConnected := false
    posConnected := true }

section Helpers

/-- The first-character guard succeeds exactly on a non-null, non-empty
string whose first character is one of the two given ones. -/
theorem firstCharIs_iff (side : Option (List Char)) (a b : Char) :
    firstCharIs side a b = true ↔
      ∃ c rest, side = some (c :: rest) ∧ (c = a ∨ c = b) := by
  cases side with
  | none => simp [firstCharIs]
  | some l =>
    cases l with
    | nil => simp [firstCharIs]
    | cons c rest =>
      simp only [firstCharIs, Bool.or_eq_true, decide_eq_true_eq,
        Option.some.injEq, List.cons.injEq]
      constructor
      · intro h; exact ⟨c, rest, ⟨rfl, rfl⟩, h⟩
      · rintro ⟨c2, r2, ⟨hc, hr⟩, h⟩; subst hc; subst hr; exact h

/-- Rebuilding the paned layout only marks the conversation notebook as
merged on the association; it does not otherwise change it. -/
theorem create_paned_layout_convs (s : GState) (side : Option (List Char)) :
    (pwm_create_paned_layout s side).convs =
      s.convs.map (fun c => { c with notebookMerged := true }) := by
  unfold pwm_create_paned_layout
  cases s.layoutPaned <;> rfl

/-- Rebuilding the paned layout does not change the Buddy List identity,
slots unrelated to the layout, or the preference store. -/
theorem create_paned_layout_frame (s : GState) (side : Option (List Char)) :
    (pwm_create_paned_layout s side).blistId = s.blistId ∧
    (pwm_create_paned_layout s side).slotMenus = s.slotMenus ∧
    (pwm_create_paned_layout s side).slotTitle = s.slotTitle := by
  unfold pwm_create_paned_layout
  cases s.layoutPaned <;> exact ⟨rfl, rfl, rfl⟩

/-- The paned produced by pwm_create_paned_layout, computed explicitly:
orientation from the t/b test, pack order from the t/l test, fresh slider
state, notify_max_position_cb connected, notify_position_cb not yet. -/
theorem create_paned_layout_paned (s : GState) (side : Option (List Char)) :
    (pwm_create_paned_layout s side).layoutPaned = some
      { orientation := if firstCharIs side 't' 'b' then Orientation.vertical
          else Orientation.horizontal
        child1 := if firstCharIs side 't' 'l' then PaneChild.convNotebook
          else PaneChild.blistNotebook
        child2 := if firstCharIs side 't' 'l' then PaneChild.blistNotebook
          else PaneChild.convNotebook
        position := 0
        maxPosition := 0
        maxPosConnected := true
        posConnected := false } := by
  unfold pwm_create_paned_layout
  cases hfc : firstCharIs side 't' 'l' <;> cases s.layoutPaned <;> simp [hfc]

/-- A visibility pass whose saved list covers the whole menu-item list is
an unconditional visibility update. -/
theorem map_vis_of_mem (l : List MenuItem) (ids : List Nat) (b : Bool)
    (h : ∀ it ∈ l, it.id ∈ ids) :
    l.map (fun it => if it.id ∈ ids then { it with visible := b } else it) =
      l.map (fun it => { it with visible := b }) := by
  induction l with
  | nil => rfl
  | cons x xs ih =>
      simp only [List.map_cons]
      rw [if_pos (h x (List.mem_cons_self x xs)),
        ih (fun it hm => h it (List.mem_cons_of_mem x hm))]

/-- A reparent pass whose saved list covers the whole menu-item list is an
unconditional location update. -/
theorem map_bar_of_mem (l : List MenuItem) (ids : List Nat)
    (h : ∀ it ∈ l, it.id ∈ ids) :
    l.map (fun it => if it.id ∈ ids then { it with onBlistBar := false } else it)
      = l.map (fun it => { it with onBlistBar := false }) := by
  induction l with
  | nil => rfl
  | cons x xs ih =>
      simp only [List.map_cons]
      rw [if_pos (h x (List.mem_cons_self x xs)),
        ih (fun it hm => h it (List.mem_cons_of_mem x hm))]

/-- Mapping a function that fixes every member of a list is the identity. -/
theorem list_map_fix {α : Type} (l : List α) (f : α → α)
    (h : ∀ x ∈ l, f x = x) : l.map f = l := by
  induction l with
  | nil => rfl
  | cons x xs ih =>
      simp only [List.map_cons]
      rw [h x (List.mem_cons_self x xs),
        ih (fun y hy => h y (List.mem_cons_of_mem x hy))]

/-- A visibility pass whose saved list misses every menu item of a list
leaves the list alone. -/
theorem map_vis_of_not_mem (l : List MenuItem) (ids : List Nat) (b : Bool)
    (h : ∀ it ∈ l, it.id ∉ ids) :
    l.map (fun it => if it.id ∈ ids then { it with visible := b } else it)
      = l := by
  induction l with
  | nil => rfl
  | cons x xs ih =>
      simp only [List.map_cons]
      rw [if_neg (h x (List.mem_cons_self x xs)),
        ih (fun it hm => h it (List.mem_cons_of_mem x hm))]

/-- A visibility pass over a conversation window none of whose menu items
is in the saved list leaves the window alone. -/
theorem setItemsVisible_not_mem (ids : List Nat) (b : Bool) (cw : ConvWin)
    (h : ∀ it ∈ cw.menuItems, it.id ∉ ids) :
    setItemsVisible ids b cw = cw := by
  unfold setItemsVisible
  rw [map_vis_of_not_mem cw.menuItems ids b h]

/-- Hiding or showing an empty saved list touches nothing. -/
theorem setItemsVisible_nil (b : Bool) (cw : ConvWin) :
    setItemsVisible [] b cw = cw := by
  unfold setItemsVisible
  have h : cw.menuItems.map
      (fun it => if it.id ∈ ([] : List Nat) then { it with visible := b } else it)
      = cw.menuItems := by
    simp
  rw [h]

/-- Rebuilding the paned layout never changes the Buddy List identity. -/
theorem create_paned_layout_blistId (s : GState) (side : Option (List Char)) :
    (pwm_create_paned_layout s side).blistId = s.blistId := by
  unfold pwm_create_paned_layout
  cases s.layoutPaned <;> rfl

/-- The fresh menu items of a new conversation window, after migration to
the Buddy List bar and the hide pass over the saved list, computed
explicitly: every item ends hidden and on the Buddy List bar. -/
theorem merged_items (base n : Nat) :
    List.map (fun it => if it.id ∈ List.map (fun it => it.id)
        (List.map (fun i =>
          ({ id := base + 1 + i, visible := true, onBlistBar := false } : MenuItem))
          (List.range n)) then { it with visible := false } else it)
      (List.map (fun it => { it with onBlistBar := true })
        (List.map (fun i =>
          ({ id := base + 1 + i, visible := true, onBlistBar := false } : MenuItem))
          (List.range n)))
    = List.map (fun i =>
        ({ id := base + 1 + i, visible := false, onBlistBar := true } : MenuItem))
        (List.range n) := by
  rw [map_vis_of_mem]
  · rw [List.map_map, List.map_map]
    rfl
  · intro it hm
    rw [List.map_map] at hm
    rw [List.map_map]
    obtain ⟨i, hi, heq⟩ := List.mem_map.mp hm
    apply List.mem_map.mpr
    refine ⟨i, hi, ?_⟩
    rw [← heq]
    rfl

/-- The ids saved in the "conv_menus" slot, computed explicitly. -/
theorem items_ids (base n : Nat) :
    List.map (fun it => it.id)
      (List.map (fun i =>
        ({ id := base + 1 + i, visible := true, onBlistBar := false } : MenuItem))
        (List.range n))
    = List.map (fun i => base + 1 + i) (List.range n) := by
  rw [List.map_map]
  rfl

/-- The reparent-back pass of a split over the merged menu items, computed
explicitly: every item ends back off the Buddy List bar. -/
theorem split_items (base n : Nat) :
    List.map (fun it => if it.id ∈ List.map (fun i => base + 1 + i) (List.range n)
        then { it with onBlistBar := false } else it)
      (List.map (fun i =>
        ({ id := base + 1 + i, visible := false, onBlistBar := true } : MenuItem))
        (List.range n))
    = List.map (fun i =>
        ({ id := base + 1 + i, visible := false, onBlistBar := false } : MenuItem))
        (List.range n) := by
  rw [map_bar_of_mem]
  · rw [List.map_map]
    rfl
  · intro it hm
    obtain ⟨i, hi, heq⟩ := List.mem_map.mp hm
    apply List.mem_map.mpr
    refine ⟨i, hi, ?_⟩
    rw [← heq]

/-- pwm_merge_conversation on an unmerged Buddy List with no leftover
paned, computed explicitly as one record.  The id-freshness hypothesis on
the detached conversation windows stands for pointer uniqueness: a fresh
widget is a different widget from every existing one. -/
theorem pwm_merge_compute (s : GState) (nItems : Nat)
    (hc : s.convs = none) (hl : s.layoutPaned = none)
    (hd : ∀ cw ∈ s.detached, ∀ it ∈ cw.menuItems, it.id < s.fresh) :
    pwm_merge_conversation s nItems =
      { blistId := s.blistId
        blistWindow := s.blistWindow
        title := s.title
        prefs := s.prefs
        layoutPaned := some
          { orientation := if firstCharIs s.prefs.side 't' 'b' then
              Orientation.vertical else Orientation.horizontal
            child1 := if firstCharIs s.prefs.side 't' 'l' then
              PaneChild.convNotebook else PaneChild.blistNotebook
            child2 := if firstCharIs s.prefs.side 't' 'l' then
              PaneChild.blistNotebook else PaneChild.convNotebook
            position := 0
            maxPosition := 0
            maxPosConnected := true
            posConnected := false }
        slotTitle := some s.title
        slotMenus := some ((List.range nItems).map (fun i => s.fresh + 1 + i))
        slotPlaceholder := some (s.fresh + 1 + nItems)
        slotConvWindow := some s.fresh
        convs := some
          { windowPtr := s.blistWindow
            realWindow := s.fresh
            menuItems := (List.range nItems).map
              (fun i => ⟨s.fresh + 1 + i, false, true⟩)
            blistTag := some s.blistId
            notebookMerged := true }
        focusConnTo := some s.fresh
        dummy := true
        skipped := pwmSkippedBindings.foldl gtk_binding_entry_skip s.skipped
        detached := s.detached
        fresh := s.fresh + 1 + nItems + 1 } := by
  have hguard : (pwm_blist_get_convs s).isSome = false := by
    rw [pwm_blist_get_convs, hc]; rfl
  have hdet : List.map
      (setItemsVisible (List.map (fun i => s.fresh + 1 + i) (List.range nItems))
        false) s.detached = s.detached := by
    apply list_map_fix
    intro cw hcw
    apply setItemsVisible_not_mem
    intro it hit hmem
    obtain ⟨i, hi, heq⟩ := List.mem_map.mp hmem
    have heq2 : s.fresh + 1 + i = it.id := heq
    have hlt := hd cw hcw it hit
    omega
  unfold pwm_merge_conversation
  rw [hguard]
  simp only [Bool.false_eq_true, if_false]
  simp only [pidgin_conv_window_new, pwm_create_paned_layout,
    pwm_set_conv_menus_visible, setItemsVisible, hl, Option.map_some',
    Option.getD_some]
  rw [merged_items s.fresh nItems, items_ids s.fresh nItems, hdet]
  cases hlp : firstCharIs s.prefs.side 't' 'l' <;> simp [hlp]

/-- pwm_split_conversation right after a merge of an unmerged Buddy List,
computed explicitly: everything is back except the binding skip set, and
the conversation window is detached with its items back home. -/
theorem pwm_split_merge_compute (s : GState) (nItems : Nat)
    (hc : s.convs = none) (hl : s.layoutPaned = none)
    (hd : ∀ cw ∈ s.detached, ∀ it ∈ cw.menuItems, it.id < s.fresh) :
    pwm_split_conversation (pwm_merge_conversation s nItems) = some
      { blistId := s.blistId
        blistWindow := s.blistWindow
        title := s.title
        prefs := s.prefs
        layoutPaned := none
        slotTitle := none
        slotMenus := none
        slotPlaceholder := none
        slotConvWindow := none
        convs := none
        focusConnTo := none
        dummy := false
        skipped := pwmSkippedBindings.foldl gtk_binding_entry_skip s.skipped
        detached :=
          { windowPtr := s.fresh
            realWindow := s.fresh
            menuItems := (List.range nItems).map
              (fun i => ⟨s.fresh + 1 + i, false, false⟩)
            blistTag := none
            notebookMerged := false } :: s.detached
        fresh := s.fresh + 1 + nItems + 1 } := by
  rw [pwm_merge_compute s nItems hc hl hd]
  unfold pwm_split_conversation pwm_blist_get_convs
  simp only [Option.getD_some]
  rw [split_items s.fresh nItems]

/-- pwm_merge_conversation on an unmerged Buddy List establishes the
association: pwm_convs points at the newly created conversation window
(identified by the freshly allocated window) and its pwm_blist tag points
back at this Buddy List. -/
theorem merge_convs_assoc (s : GState) (nItems : Nat) (hc : s.convs = none) :
    ∃ cw, (pwm_merge_conversation s nItems).convs = some cw ∧
      cw.blistTag = some s.blistId ∧ cw.realWindow = s.fresh ∧
      (pwm_merge_conversation s nItems).blistId = s.blistId := by
  have hguard : (pwm_blist_get_convs s).isSome = false := by
    rw [pwm_blist_get_convs, hc]; rfl
  unfold pwm_merge_conversation
  rw [hguard]
  simp only [Bool.false_eq_true, if_false]
  simp only [pidgin_conv_window_new, pwm_set_conv_menus_visible,
    setItemsVisible, create_paned_layout_convs, create_paned_layout_blistId,
    Option.map_some', Option.getD_some]
  exact ⟨_, rfl, rfl, rfl, trivial⟩

/-- Between a merge and a split, neither relayouts nor visibility toggles
touch the association tags or the Buddy List identity. -/
theorem applyOp_preserves_assoc (t : GState) (o : POp) (cw : ConvWin)
    (hc : t.convs = some cw) :
    ∃ cw2, (applyOp t o).convs = some cw2 ∧
      cw2.blistTag = cw.blistTag ∧ cw2.realWindow = cw.realWindow ∧
      (applyOp t o).blistId = t.blistId := by
  cases o with
  | relayout side =>
      refine ⟨{ cw with notebookMerged := true }, ?_, rfl, rfl,
        create_paned_layout_blistId t side⟩
      show (pwm_create_paned_layout t side).convs = _
      rw [create_paned_layout_convs, hc]
      rfl
  | menusVisible b =>
      refine ⟨setItemsVisible (t.slotMenus.getD []) b cw, ?_, rfl, rfl, rfl⟩
      show (pwm_set_conv_menus_visible t b).convs = _
      simp only [pwm_set_conv_menus_visible, hc, Option.map_some']

/-- The association invariant is preserved by any sequence of
between-merge-and-split operations. -/
theorem foldl_preserves_assoc (ops : List POp) :
    ∀ t : GState, ∀ cw : ConvWin, t.convs = some cw →
      ∃ cw2, (ops.foldl applyOp t).convs = some cw2 ∧
        cw2.blistTag = cw.blistTag ∧ cw2.realWindow = cw.realWindow ∧
        (ops.foldl applyOp t).blistId = t.blistId := by
  induction ops with
  | nil => intro t cw hc; exact ⟨cw, hc, rfl, rfl, rfl⟩
  | cons o ops ih =>
      intro t cw hc
      simp only [List.foldl_cons]
      obtain ⟨cw1, hc1, ht1, hr1, hb1⟩ := applyOp_preserves_assoc t o cw hc
      obtain ⟨cw2, hc2, ht2, hr2, hb2⟩ := ih (applyOp t o) cw1 hc1
      exact ⟨cw2, hc2, by rw [ht2, ht1], by rw [hr2, hr1], by rw [hb2, hb1]⟩

end Helpers

/-- C3: pwm_create_paned_layout chooses the paned orientation from only
the first character of the side string: the created paned is vertical if
and only if side is non-null and its first character is t or b, and in
every other case (null side, empty string, unrecognized first character)
it is horizontal. -/
theorem create_paned_layout_orientation (s : GState) (side : Option (List Char)) :
    ∃ p, (pwm_create_paned_layout s side).layoutPaned = some p ∧
      (p.orientation = Orientation.vertical ↔
        ∃ c rest, side = some (c :: rest) ∧ (c = 't' ∨ c = 'b')) ∧
      (p.orientation = Orientation.horizontal ↔
        ¬ ∃ c rest, side = some (c :: rest) ∧ (c = 't' ∨ c = 'b')) := by
  have hiff := firstCharIs_iff side 't' 'b'
  refine ⟨_, create_paned_layout_paned s side, ?_, ?_⟩
  · cases h : firstCharIs side 't' 'b' with
    | false =>
        rw [h] at hiff
        apply iff_of_false (by simp)
        intro hc
        exact absurd (hiff.mpr hc) (by simp)
    | true =>
        rw [h] at hiff
        exact iff_of_true (by simp) (hiff.mp rfl)
  · cases h : firstCharIs side 't' 'b' with
    | false =>
        rw [h] at hiff
        apply iff_of_true (by simp)
        intro hc
        exact absurd (hiff.mpr hc) (by simp)
    | true =>
        rw [h] at hiff
        apply iff_of_false (by simp)
        intro hn
        exact hn (hiff.mp rfl)

/-- C4: pwm_create_paned_layout packs the conversation notebook as the
paned's first child if and only if side is non-null and its first
character is t or l, and otherwise packs the Buddy List notebook first;
the packing is the same whether or not a paned already existed (initial
layout vs replacement). -/
theorem create_paned_layout_child_order (s : GState) (side : Option (List Char)) :
    (∃ p, (pwm_create_paned_layout s side).layoutPaned = some p ∧
      (p.child1 = PaneChild.convNotebook ↔
        ∃ c rest, side = some (c :: rest) ∧ (c = 't' ∨ c = 'l')) ∧
      (p.child1 = PaneChild.blistNotebook ↔
        ¬ ∃ c rest, side = some (c :: rest) ∧ (c = 't' ∨ c = 'l')) ∧
      (p.child1 = PaneChild.convNotebook → p.child2 = PaneChild.blistNotebook) ∧
      (p.child1 = PaneChild.blistNotebook → p.child2 = PaneChild.convNotebook)) ∧
    (pwm_create_paned_layout s side).layoutPaned =
      (pwm_create_paned_layout { s with layoutPaned := none } side).layoutPaned := by
  constructor
  · have hiff := firstCharIs_iff side 't' 'l'
    refine ⟨_, create_paned_layout_paned s side, ?_, ?_, ?_, ?_⟩
    · cases h : firstCharIs side 't' 'l' with
      | false =>
          rw [h] at hiff
          apply iff_of_false (by simp)
          intro hc
          exact absurd (hiff.mpr hc) (by simp)
      | true =>
          rw [h] at hiff
          exact iff_of_true (by simp) (hiff.mp rfl)
    · cases h : firstCharIs side 't' 'l' with
      | false =>
          rw [h] at hiff
          apply iff_of_true (by simp)
          intro hc
          exact absurd (hiff.mpr hc) (by simp)
      | true =>
          rw [h] at hiff
          apply iff_of_false (by simp)
          intro hn
          exact hn (hiff.mp rfl)
    · cases h : firstCharIs side 't' 'l' with
      | false => intro hv; exact absurd hv (by simp)
      | true => intro _; simp
    · cases h : firstCharIs side 't' 'l' with
      | false => intro _; simp
      | true => intro hv; exact absurd hv (by simp)
  · rw [create_paned_layout_paned s side,
      create_paned_layout_paned { s with layoutPaned := none } side]

/-- C5: on a slider move, notify_position_cb stores the Buddy List pane
size under the height preference for a vertical paned and under the width
preference otherwise, leaving the other key and the side preference
untouched; the stored value is the raw slider position when the Buddy
List notebook is the paned's first child and max-position minus position
otherwise. -/
theorem notify_position_cb_stores (gobject : Paned) (prefs : Prefs) :
    (notify_position_cb gobject prefs).height =
      (if gobject.orientation = Orientation.vertical then
        (if gobject.child1 = PaneChild.blistNotebook then gobject.position
          else gobject.maxPosition - gobject.position)
       else prefs.height) ∧
    (notify_position_cb gobject prefs).width =
      (if gobject.orientation = Orientation.vertical then prefs.width
       else (if gobject.child1 = PaneChild.blistNotebook then gobject.position
          else gobject.maxPosition - gobject.position)) ∧
    (notify_position_cb gobject prefs).side = prefs.side := by
  unfold notify_position_cb
  rcases ho : gobject.orientation <;>
    rcases hc : gobject.child1 <;> simp [ho, hc]

/-- C6: persisting and restoring the pane size round-trips: running
notify_position_cb on a paned and then notify_max_position_cb on the same
paned with the resulting preference store sets the slider back to exactly
the original position. -/
theorem size_pref_roundtrip (gobject : Paned) (prefs : Prefs) :
    (notify_max_position_cb gobject (notify_position_cb gobject prefs)).position =
      gobject.position := by
  unfold notify_max_position_cb notify_position_cb
  rcases ho : gobject.orientation <;> rcases hc : gobject.child1 <;>
    simp [ho, hc]

/-- C2: pwm_merge_conversation on an already-merged Buddy List (non-null
pwm_convs association) returns immediately and changes nothing: the whole
state, including the association, the slots and the binding skip set, is
exactly as before. -/
theorem merge_already_merged_noop (s : GState) (nItems : Nat)
    (h : pwm_blist_get_convs s ≠ none) :
    pwm_merge_conversation s nItems = s := by
  unfold pwm_merge_conversation
  rw [if_pos (Option.isSome_iff_ne_none.mpr h)]

/-- Witness for C2 at a concrete merged state. -/
theorem merge_already_merged_noop_wit :
    pwm_blist_get_convs exMerged ≠ none ∧
      pwm_merge_conversation exMerged 2 = exMerged :=
  ⟨by decide, merge_already_merged_noop exMerged 2 (by decide)⟩

/-- C7: splitting a merged Buddy List clears every saved-state slot — the
conversation window pointer, the menu-item list, the placeholder, the
paned, the original title — and removes both directions of the
association: the pwm_convs tag is gone from the Buddy List and the
pwm_blist tag is gone from the now-detached conversation window. -/
theorem split_clears_merge_state (s : GState) (cw : ConvWin)
    (h : pwm_blist_get_convs s = some cw) :
    ∃ s2, pwm_split_conversation s = some s2 ∧
      s2.slotConvWindow = none ∧ s2.slotMenus = none ∧
      s2.slotPlaceholder = none ∧ s2.layoutPaned = none ∧
      s2.slotTitle = none ∧ s2.convs = none ∧
      ∃ cw1, s2.detached = cw1 :: s.detached ∧ cw1.blistTag = none := by
  unfold pwm_split_conversation
  rw [h]
  exact ⟨_, rfl, rfl, rfl, rfl, rfl, rfl, rfl, _, rfl, rfl⟩

/-- Witness for C7 at a concrete merged state. -/
theorem split_clears_merge_state_wit :
    ∃ s2, pwm_split_conversation exMerged = some s2 ∧
      s2.slotConvWindow = none ∧ s2.slotMenus = none ∧
      s2.slotPlaceholder = none ∧ s2.layoutPaned = none ∧
      s2.slotTitle = none ∧ s2.convs = none ∧
      ∃ cw1, s2.detached = cw1 :: exMerged.detached ∧ cw1.blistTag = none :=
  split_clears_merge_state exMerged exConv rfl

/-- C9: pwm_set_conv_menus_visible sets every menu item of the stored
conversation-menu list to the requested visibility (shown when true,
hidden when false), and when the Buddy List is not merged and the stored
list is absent or empty it is a no-op: the state is untouched. -/
theorem set_conv_menus_visible_correct (s : GState) (b : Bool) :
    (∀ ids cw, s.slotMenus = some ids → s.convs = some cw →
      ∃ cw2, (pwm_set_conv_menus_visible s b).convs = some cw2 ∧
        ∀ it2 ∈ cw2.menuItems, it2.id ∈ ids → it2.visible = b) ∧
    (s.convs = none → s.slotMenus = none ∨ s.slotMenus = some [] →
      pwm_set_conv_menus_visible s b = s) := by
  constructor
  · intro ids cw hm hc
    refine ⟨setItemsVisible ids b cw, ?_, ?_⟩
    · simp [pwm_set_conv_menus_visible, hm, hc]
    · intro it2 h2 hid
      unfold setItemsVisible at h2
      simp only [List.mem_map] at h2
      obtain ⟨it1, _, heq⟩ := h2
      by_cases h1 : it1.id ∈ ids
      · rw [← heq]
        simp [h1]
      · rw [← heq] at hid
        simp only [h1, if_neg] at hid
        exact absurd hid h1
  · intro hc hm
    have hnil : s.slotMenus.getD [] = [] := by
      rcases hm with hm | hm <;> rw [hm] <;> rfl
    have hconv : Option.map (setItemsVisible [] b) s.convs = s.convs := by
      rw [hc]
      rfl
    have hdet : List.map (setItemsVisible [] b) s.detached = s.detached := by
      have hfun : setItemsVisible [] b = id := funext (setItemsVisible_nil b)
      rw [hfun, List.map_id]
    simp only [pwm_set_conv_menus_visible, hnil, hconv, hdet]

/-- Witness for C9 at a concrete merged state and at a concrete unmerged
one. -/
theorem set_conv_menus_visible_correct_wit :
    (∃ cw2, (pwm_set_conv_menus_visible exMerged true).convs = some cw2 ∧
      ∀ it2 ∈ cw2.menuItems, it2.id ∈ [101, 102] → it2.visible = true) ∧
    pwm_set_conv_menus_visible exBlist false = exBlist :=
  ⟨(set_conv_menus_visible_correct exMerged true).1 [101, 102] exConv rfl rfl,
   (set_conv_menus_visible_correct exBlist false).2 rfl (Or.inl rfl)⟩

/-- The connection flags reached after the initial notify::max-position
dispatch persist through any later event sequence: notify_max_position_cb
stays disconnected and notify_position_cb stays connected. -/
theorem pwm_step_flags (es : List PEvent) :
    ∀ st : Paned × Prefs,
      st.1.maxPosConnected = false → st.1.posConnected = true →
      (es.foldl pwm_step st).1.maxPosConnected = false ∧
      (es.foldl pwm_step st).1.posConnected = true := by
  induction es with
  | nil => intro st h1 h2; exact ⟨h1, h2⟩
  | cons e es ih =>
      intro st h1 h2
      have hstep : (pwm_step st e).1.maxPosConnected = false ∧
          (pwm_step st e).1.posConnected = true := by
        cases e with
        | maxPosNotify => simp [pwm_step, h1, h2]
        | userMove p => simp [pwm_step, h1, h2]
      exact ih _ hstep.1 hstep.2

/-- A notify::max-position dispatch with the callback disconnected changes
nothing. -/
theorem pwm_step_max_noop (st : Paned × Prefs)
    (h : st.1.maxPosConnected = false) :
    pwm_step st PEvent.maxPosNotify = st := by
  simp [pwm_step, h]

/-- A user slider move with notify_position_cb connected records the move
through notify_position_cb. -/
theorem pwm_step_userMove (st : Paned × Prefs) (q : Int)
    (h : st.1.posConnected = true) :
    (pwm_step st (PEvent.userMove q)).2 =
      notify_position_cb { st.1 with position := q } st.2 := by
  simp [pwm_step, h]

/-- C10: the initial-size callback is one-shot.  On the paned built by
pwm_create_paned_layout (only notify_max_position_cb connected), the first
notify::max-position dispatch runs the callback — applying the stored
preference without writing any preference — after which the callback is
disconnected and notify_position_cb is connected; from then on, however
events unfold, further notify::max-position dispatches change nothing and
every user slider move is recorded through notify_position_cb. -/
theorem max_position_cb_one_shot (s : GState) (side : Option (List Char))
    (prefs : Prefs) (p0 : Paned)
    (h : (pwm_create_paned_layout s side).layoutPaned = some p0) :
    pwm_one_shot_from p0 prefs := by
  have hmax : p0.maxPosConnected = true := by
    rw [create_paned_layout_paned s side] at h
    simp only [Option.some.injEq] at h
    rw [← h]
  have hstep1 : pwm_step (p0, prefs) PEvent.maxPosNotify =
      (notify_max_position_cb p0 prefs, prefs) := by
    simp [pwm_step, hmax]
  unfold pwm_one_shot_from
  refine ⟨hstep1, ?_, ?_, ?_⟩
  · rw [hstep1]
    rfl
  · rw [hstep1]
    rfl
  · intro es
    have hinv := pwm_step_flags es (pwm_step (p0, prefs) PEvent.maxPosNotify)
      (by rw [hstep1]; rfl) (by rw [hstep1]; rfl)
    exact ⟨hinv.1, hinv.2, pwm_step_max_noop _ hinv.1,
      fun q => pwm_step_userMove _ q hinv.2⟩

/-- Witness for C10 on a concrete Buddy List, side preference and
preference store. -/
theorem max_position_cb_one_shot_wit :
    pwm_one_shot_from
      { orientation := Orientation.vertical
        child1 := PaneChild.convNotebook
        child2 := PaneChild.blistNotebook
        position := 0
        maxPosition := 0
        maxPosConnected := true
        posConnected := false }
      { width := 10, height := 20, side := some ['t'] } :=
  max_position_cb_one_shot exBlist (some ['t'])
    { width := 10, height := 20, side := some ['t'] } _ (by decide)

/-- C1 (amended): pwm_split_conversation after pwm_merge_conversation on
an unmerged Buddy List (no association, no leftover paned, detached
windows' widget ids below the allocator, standing for pointer uniqueness)
restores every listed observable component — window title, notebook
placement, menu items back on the conversation window's menu bar,
conversation window pointer, the focus signal connection, the slots and
both association tags — EXCEPT the GtkIMHtml key-binding set: the six
move-cursor bindings skipped by the merge remain skipped after the split
(merge.c line 223 records that there is no way to undo them). -/
theorem merge_split_inverse_except_bindings (s : GState) (nItems : Nat)
    (hc : s.convs = none) (hl : s.layoutPaned = none)
    (hd : ∀ cw ∈ s.detached, ∀ it ∈ cw.menuItems, it.id < s.fresh) :
    pwm_split_restores s nItems := by
  unfold pwm_split_restores
  refine ⟨_, pwm_split_merge_compute s nItems hc hl hd, ?_⟩
  refine ⟨rfl, rfl, rfl, rfl, rfl, rfl, rfl, rfl, rfl, rfl, rfl, rfl, ?_, rfl⟩
  refine ⟨_, rfl, rfl, rfl, rfl, ?_⟩
  intro it hm
  obtain ⟨i, hi, heq⟩ := List.mem_map.mp hm
  rw [← heq]

/-- Witness for the amended C1 at a concrete pristine Buddy List. -/
theorem merge_split_inverse_except_bindings_wit : pwm_split_restores exBlist 2 :=
  merge_split_inverse_except_bindings exBlist 2 rfl rfl
    (by intro cw hcw; simp [exBlist] at hcw)

/-- Counterexample to C1 as stated: at a concrete unmerged Buddy List with
an empty binding skip set, merging and then splitting does not restore the
GtkIMHtml key-binding set — the six skipped move-cursor entries are still
skipped — so the split is not an exact inverse of the merge. -/
theorem merge_split_bindings_counterexample :
    ¬ ((pwm_split_conversation (pwm_merge_conversation exBlist 2)).map
        GState.skipped = some exBlist.skipped) := by
  decide

/-- C8: after pwm_merge_conversation on an unmerged Buddy List, the Buddy
List notebook's pwm_convs tag holds the newly created conversation window
(the one allocated by this merge) and that window's notebook's pwm_blist
tag points back at this same Buddy List; the mutual pointing persists
through any sequence of relayouts and menu visibility toggles, i.e. for as
long as the merge is in effect. -/
theorem merge_association_bidirectional (s : GState) (nItems : Nat)
    (ops : List POp) (hc : s.convs = none) :
    ∃ cw, (ops.foldl applyOp (pwm_merge_conversation s nItems)).convs = some cw ∧
      cw.blistTag = some s.blistId ∧ cw.realWindow = s.fresh ∧
      (ops.foldl applyOp (pwm_merge_conversation s nItems)).blistId
        = s.blistId := by
  obtain ⟨cw0, hc0, ht0, hr0, hb0⟩ := merge_convs_assoc s nItems hc
  obtain ⟨cw2, hc2, ht2, hr2, hb2⟩ :=
    foldl_preserves_assoc ops (pwm_merge_conversation s nItems) cw0 hc0
  exact ⟨cw2, hc2, by rw [ht2, ht0], by rw [hr2, hr0], by rw [hb2, hb0]⟩

/-- Witness for C8 at a concrete Buddy List with a relayout and a
visibility toggle after the merge. -/
theorem merge_association_bidirectional_wit :
    ∃ cw, (([POp.relayout (some ['t']), POp.menusVisible true]).foldl applyOp
        (pwm_merge_conversation exBlist 2)).convs = some cw ∧
      cw.blistTag = some exBlist.blistId ∧ cw.realWindow = exBlist.fresh ∧
      (([POp.relayout (some ['t']), POp.menusVisible true]).foldl applyOp
        (pwm_merge_conversation exBlist 2)).blistId = exBlist.blistId :=
  merge_association_bidirectional exBlist 2
    [POp.relayout (some ['t']), POp.menusVisible true] rfl

end WindowMerge
